import Mathlib

/-!
Verification development for the FootballAI backend (main.py, models.py).

The service is embedded shallowly: the SQLAlchemy tables become lists of
records inside a `DB` state, each FastAPI endpoint becomes a pure function
from the request data and the current state to a response
(`Except HTTPError α`) paired with the post state, and the two external
primitives (RS256 JWT signing via python-jose and the OpenAI completion
call) are modelled abstractly: a token records its payload and the key that
signed it, and the completion provider is a function parameter returning
`Option String` (`none` = the upstream call raised).
-/

namespace FootballAI

/-- An HTTP error raised by a handler (FastAPI `HTTPException`). -/
structure HTTPError where
  status_code : Nat
  detail : String
deriving DecidableEq, Repr

/-- Result of `pwd_context.hash` (bcrypt).  The hash is modelled abstractly
as a wrapper around the input password: `verify_password` succeeds
exactly on the password the hash was derived from; one-wayness is a
property of the delegated primitive, outside the embedding. -/
structure BcryptHash where
  input : String
deriving DecidableEq, Repr

/-- models.User: one row of the `users` table. -/
structure User where
  id : Nat
  username : String
  hashed_password : BcryptHash
deriving DecidableEq, Repr

/-- models.Profile: one row of the `profiles` table.  Columns are nullable,
hence `Option`; the numeric columns are `Integer` columns, modelled as `Int`. -/
structure Profile where
  id : Nat
  name : Option String
  age : Option Int
  weight : Option Int
  height : Option Int
  strengths : Option String
  weaknesses : Option String
  expertise : Option String
  time : Option Int
  user_id : Nat
deriving DecidableEq, Repr

/-- models.ChatHistory: one row of the `chat_histories` table. -/
structure ChatHistory where
  id : Nat
  role : String
  content : String
  user_id : Nat
deriving DecidableEq, Repr

/-- The persistent store: the three tables plus the autoincrement counters
for their primary keys.  Rows appear in insertion order. -/
structure DB where
  users : List User
  profiles : List Profile
  chats : List ChatHistory
  next_user_id : Nat
  next_profile_id : Nat
  next_chat_id : Nat
deriving DecidableEq, Repr

/-- The pydantic `UserProfile` request body: every field optional, defaulting
to `None` when the caller omits it. -/
structure UserProfile where
  name : Option String := none
  age : Option Int := none
  weight : Option Int := none
  height : Option Int := none
  strengths : Option String := none
  weaknesses : Option String := none
  expertise : Option String := none
  time : Option Int := none
deriving DecidableEq, Repr

/-- The pydantic `UserCreate` request body. -/
structure UserCreate where
  username : String
  password : String
deriving DecidableEq, Repr

/-- One role/content message, as returned by the history endpoint and as sent
to the completion provider. -/
structure Msg where
  role : String
  content : String
deriving DecidableEq, Repr

/-- A JWT as produced by `jwt.encode` / consumed by `jwt.decode`.  A signed
token records the `sub` claim, the `exp` claim (seconds since epoch) and an
identifier of the signing key; `malformed` stands for any string that is not
a well-formed token. -/
inductive Token where
  | signed (sub : Option String) (exp : Nat) (key : Nat)
  | malformed (raw : String)
deriving DecidableEq, Repr

/-- The decoded claim set of a token. -/
structure Claims where
  sub : Option String
  exp : Nat
deriving DecidableEq, Repr

/-- The key pair loaded from private.pem / public.pem.  A pair is modelled
by a shared identifier: verification with the public key succeeds exactly
for tokens signed with the matching private key. -/
def PRIVATE_KEY : Nat := 0

/-- The public half of the server key pair (same pair identifier). -/
def PUBLIC_KEY : Nat := 0

/-- main.py line 50. -/
def ACCESS_TOKEN_EXPIRE_MINUTES : Nat := 60

/-- `pwd_context.hash`. -/
def get_password_hash (password : String) : BcryptHash := ⟨password⟩

/-- `pwd_context.verify`. -/
def verify_password (plain_password : String) (hashed_password : BcryptHash) : Bool :=
  hashed_password.input == plain_password

/-- `jwt.decode(token, key, algorithms=[ALGORITHM])` evaluated at time `now`
(seconds): fails (raises JWTError, here `none`) on a malformed token, a key
mismatch, or an `exp` claim in the past (python-jose rejects when
`exp < now`). -/
def jwt_decode (t : Token) (key : Nat) (now : Nat) : Option Claims :=
  match t with
  | .malformed _ => none
  | .signed sub exp k =>
      if k == key then
        if exp < now then none else some ⟨sub, exp⟩
      else none

/-- `create_access_token` (main.py 102-106): payload `sub` plus an `exp`
claim `expires_delta` (seconds) from `now`, defaulting to
`ACCESS_TOKEN_EXPIRE_MINUTES`, signed with the private key. -/
def create_access_token (sub : Option String) (expires_delta : Option Nat) (now : Nat) :
    Token :=
  Token.signed sub (now + expires_delta.getD (ACCESS_TOKEN_EXPIRE_MINUTES * 60)) PRIVATE_KEY

/-- `get_current_user` (main.py 110-118), preceded by the `OAuth2PasswordBearer`
dependency: a missing Authorization header is rejected by the scheme itself
with 401, a token that fails `jwt_decode` or lacks a `sub` claim with
401 "Invalid token". -/
def get_current_user (tok : Option Token) (now : Nat) : Except HTTPError String :=
  match tok with
  | none => .error ⟨401, "Not authenticated"⟩
  | some t =>
      match jwt_decode t PUBLIC_KEY now with
      | none => .error ⟨401, "Invalid token"⟩
      | some payload =>
          match payload.sub with
          | none => .error ⟨401, "Invalid token"⟩
          | some username => .ok username

/-- `db.query(models.User).filter(models.User.username == u).first()`. -/
def findUser (db : DB) (username : String) : Option User :=
  db.users.find? (fun u => u.username == username)

/-- `user.profile` (one-to-one relationship, `uselist=False`). -/
def userProfile (db : DB) (uid : Nat) : Option Profile :=
  db.profiles.find? (fun p => p.user_id == uid)

/-- `user.chats` (one-to-many relationship, rows in insertion order). -/
def userChats (db : DB) (uid : Nat) : List ChatHistory :=
  db.chats.filter (fun c => c.user_id == uid)

/-- POST /register (main.py 126-137). -/
def register (db : DB) (user : UserCreate) : Except HTTPError String × DB :=
  match findUser db user.username with
  | some _ => (.error ⟨400, "Username exists"⟩, db)
  | none =>
      let new_user : User := ⟨db.next_user_id, user.username, get_password_hash user.password⟩
      (.ok "User registered",
        { db with users := db.users ++ [new_user], next_user_id := db.next_user_id + 1 })

/-- POST /token (main.py 139-145). -/
def login (db : DB) (username password : String) (now : Nat) :
    Except HTTPError Token × DB :=
  match findUser db username with
  | none => (.error ⟨400, "Incorrect username or password"⟩, db)
  | some user =>
      if verify_password password user.hashed_password then
        (.ok (create_access_token (some user.username) none now), db)
      else
        (.error ⟨400, "Incorrect username or password"⟩, db)

/-- `setattr(user.profile, key, value)` for every key of `profile.dict()`:
all eight fields are overwritten, the row id and owner are untouched. -/
def setProfileFields (row : Profile) (p : UserProfile) : Profile :=
  { row with
      name := p.name, age := p.age, weight := p.weight, height := p.height,
      strengths := p.strengths, weaknesses := p.weaknesses,
      expertise := p.expertise, time := p.time }

/-- In-place update of the (first) profile row owned by `uid`. -/
def updateProfileRow (ps : List Profile) (uid : Nat) (p : UserProfile) : List Profile :=
  match ps with
  | [] => []
  | row :: rest =>
      if row.user_id == uid then setProfileFields row p :: rest
      else row :: updateProfileRow rest uid p

/-- POST /v1/user/profile (main.py 150-164). -/
def create_or_update_profile (db : DB) (tok : Option Token) (now : Nat)
    (profile : UserProfile) : Except HTTPError UserProfile × DB :=
  match get_current_user tok now with
  | .error e => (.error e, db)
  | .ok current_username =>
      match findUser db current_username with
      | none => (.error ⟨404, "User not found"⟩, db)
      | some user =>
          match userProfile db user.id with
          | some _ =>
              (.ok profile, { db with profiles := updateProfileRow db.profiles user.id profile })
          | none =>
              let new_profile : Profile :=
                ⟨db.next_profile_id, profile.name, profile.age, profile.weight,
                  profile.height, profile.strengths, profile.weaknesses,
                  profile.expertise, profile.time, user.id⟩
              (.ok profile,
                { db with profiles := db.profiles ++ [new_profile],
                          next_profile_id := db.next_profile_id + 1 })

/-- The eight profile columns of a row, as serialized by GET /v1/user/profile. -/
def profileOut (row : Profile) : UserProfile :=
  ⟨row.name, row.age, row.weight, row.height, row.strengths, row.weaknesses,
    row.expertise, row.time⟩

/-- GET /v1/user/profile (main.py 166-180): `none` is the empty object `{}`
returned when the user or the profile is missing. -/
def get_profile (db : DB) (tok : Option Token) (now : Nat) :
    Except HTTPError (Option UserProfile) × DB :=
  match get_current_user tok now with
  | .error e => (.error e, db)
  | .ok current_username =>
      match findUser db current_username with
      | none => (.ok none, db)
      | some user =>
          match userProfile db user.id with
          | none => (.ok none, db)
          | some row => (.ok (some (profileOut row)), db)

/-- Python truthiness of an optional string: `None` and `""` are falsy. -/
def truthyS : Option String → Bool
  | none => false
  | some s => !(s == "")

/-- Python truthiness of an optional integer: `None` and `0` are falsy. -/
def truthyI : Option Int → Bool
  | none => false
  | some n => !(n == 0)

/-- The string rendered for an optional string field (only used under a
truthiness guard, so the `none` default is never reached). -/
def optS (o : Option String) : String := o.getD ""

/-- The string rendered for an optional integer field (Python `str`). -/
def optI : Option Int → String
  | none => "None"
  | some n => toString n

/-- The `profile_parts` list built in `soccer_coach` (main.py 195-203): one
"Label: value" line per truthy field, in the fixed field order. -/
def profile_parts (profile : Profile) : List String :=
  (if truthyS profile.name then ["Name: " ++ optS profile.name] else []) ++
  (if truthyI profile.age then ["Age: " ++ optI profile.age] else []) ++
  (if truthyI profile.weight then ["Weight (kg): " ++ optI profile.weight] else []) ++
  (if truthyI profile.height then ["Height (cm): " ++ optI profile.height] else []) ++
  (if truthyS profile.strengths then ["Strengths: " ++ optS profile.strengths] else []) ++
  (if truthyS profile.weaknesses then ["Weaknesses: " ++ optS profile.weaknesses] else []) ++
  (if truthyS profile.expertise then ["Expertise (in months): " ++ optS profile.expertise] else []) ++
  (if truthyI profile.time then ["Free time per day (minutes): " ++ optI profile.time] else [])

/-- `profile_context` (main.py 193-204): the placeholder when the user has no
profile row, otherwise the newline-joined parts. -/
def profile_context : Option Profile → String
  | none => "No profile provided."
  | some profile => String.intercalate "\n" (profile_parts profile)

/-- The fixed coaching persona prefix of the system prompt. -/
def COACH_PERSONA : String :=
  "You are an AI Coach specializing in football, fitness, and health. " ++
  "Please provide personalized advice along with a daily plan(based on amount of time with brief instructions on what to do every session.) "

/-- The system prompt (main.py 210-215). -/
def system_prompt (pctx links_content : String) : String :=
  COACH_PERSONA ++ "Profile:\n" ++ pctx ++ "\n" ++ "LINKS:\n" ++ links_content

/-- The message list sent to the completion provider (main.py 206-217):
system prompt, then the stored history, then the new query as a user turn. -/
def coach_messages (db : DB) (user : User) (query links_content : String) : List Msg :=
  ⟨"system", system_prompt (profile_context (userProfile db user.id)) links_content⟩ ::
    ((userChats db user.id).map (fun c => ⟨c.role, c.content⟩) ++ [⟨"user", query⟩])

/-- `db.add(models.ChatHistory(role=..., content=..., owner=user))` followed
by commit: append one row with the next primary key. -/
def addChat (db : DB) (uid : Nat) (role content : String) : DB :=
  { db with chats := db.chats ++ [⟨db.next_chat_id, role, content, uid⟩],
            next_chat_id := db.next_chat_id + 1 }

/-- POST /v1/coach (main.py 185-230).  `completion` models
`client.chat.completions.create`; `none` models a raised provider error,
which propagates out of the handler (500) before any row is added. -/
def soccer_coach (db : DB) (tok : Option Token) (now : Nat) (query : String)
    (completion : List Msg → Option String) (links_content : String) :
    Except HTTPError String × DB :=
  match get_current_user tok now with
  | .error e => (.error e, db)
  | .ok username =>
      match findUser db username with
      | none => (.error ⟨404, "User not found"⟩, db)
      | some user =>
          match completion (coach_messages db user query links_content) with
          | none => (.error ⟨500, "Internal Server Error"⟩, db)
          | some answer =>
              (.ok answer,
                addChat (addChat db user.id "user" query) user.id "assistant" answer)

/-- GET /v1/chat/history (main.py 235-240). -/
def get_chat_history (db : DB) (tok : Option Token) (now : Nat) :
    Except HTTPError (List Msg) × DB :=
  match get_current_user tok now with
  | .error e => (.error e, db)
  | .ok username =>
      match findUser db username with
      | none => (.error ⟨404, "User not found"⟩, db)
      | some user =>
          (.ok ((userChats db user.id).map (fun c => ⟨c.role, c.content⟩)), db)

/-- DELETE /v1/chat/history (main.py 242-249). -/
def clear_chat_history (db : DB) (tok : Option Token) (now : Nat) :
    Except HTTPError String × DB :=
  match get_current_user tok now with
  | .error e => (.error e, db)
  | .ok username =>
      match findUser db username with
      | none => (.error ⟨404, "User not found"⟩, db)
      | some user =>
          (.ok "Chat history cleared.",
            { db with chats := db.chats.filter (fun c => !(c.user_id == user.id)) })

/-! Auxiliary definitions used by the statements: string-prefix matching for
the "Label: value" lines of the profile summary, the username-uniqueness
invariant, and concrete fixtures for the witnesses. -/

/-- Character-list matching: `charsMatch a b` holds when `a` is an initial
segment of `b`. -/
def charsMatch : List Char → List Char → Bool
  | [], _ => true
  | _ :: _, [] => false
  | a :: as, b :: bs => a == b && charsMatch as bs

/-- `hasLabel l s`: the string `s` starts with the label `l`. -/
def hasLabel (l s : String) : Bool := charsMatch l.data s.data

/-- How many lines of `parts` start with the label `l`. -/
def countLabel (l : String) (parts : List String) : Nat :=
  parts.countP (fun s => hasLabel l s)

/-- `mismatchWithin a b`: the two character lists disagree at some position
that lies inside both, so `a` cannot be an initial segment of `b ++ v` for
any `v`. -/
def mismatchWithin : List Char → List Char → Bool
  | [], _ => false
  | _ :: _, [] => false
  | a :: as, b :: bs => !(a == b) || mismatchWithin as bs

/-- Username uniqueness across the `users` table. -/
def UniqueUsernames (us : List User) : Prop :=
  us.Pairwise (fun a b => a.username ≠ b.username)

/-- Fixture: the user "alice" with password "pw". -/
def aliceUser : User := ⟨1, "alice", get_password_hash "pw"⟩

/-- Fixture: a store holding only alice. -/
def dbA : DB := ⟨[aliceUser], [], [], 2, 1, 1⟩

/-- Fixture: a token issued for alice at time 0. -/
def tokA : Token := create_access_token (some "alice") none 0

/-- Fixture: an empty store. -/
def emptyDB : DB := ⟨[], [], [], 1, 1, 1⟩

/-- Fixture: a structurally valid token for the nonexistent user "ghost". -/
def ghostTok : Token := create_access_token (some "ghost") none 0

/-- Fixture: a store with two users each owning one chat row. -/
def dbB : DB :=
  ⟨[aliceUser, ⟨2, "bob", get_password_hash "pw2"⟩], [],
    [⟨1, "user", "ha", 1⟩, ⟨2, "user", "hb", 2⟩], 3, 1, 3⟩

/-- Fixture: a profile row whose `age` column is populated with the falsy
value 0. -/
def bobRow : Profile := ⟨1, some "Bob", some 0, none, none, none, none, none, none, 7⟩

/-! Helper lemmas. -/

theorem get_current_user_error_401 {tok : Option Token} {now : Nat} {e : HTTPError}
    (h : get_current_user tok now = .error e) : e.status_code = 401 := by
  cases tok with
  | none =>
      simp only [get_current_user] at h
      cases h
      rfl
  | some t =>
      cases hd : jwt_decode t PUBLIC_KEY now with
      | none =>
          simp only [get_current_user, hd] at h
          cases h
          rfl
      | some payload =>
          cases hs : payload.sub with
          | none =>
              simp only [get_current_user, hd, hs] at h
              cases h
              rfl
          | some username =>
              simp only [get_current_user, hd, hs] at h
              cases h

theorem find?_append_none {α : Type} (p : α → Bool) {l1 : List α} (l2 : List α)
    (h : l1.find? p = none) : (l1 ++ l2).find? p = l2.find? p := by
  simp [List.find?_append, h]

theorem setProfileFields_user_id (row : Profile) (p : UserProfile) :
    (setProfileFields row p).user_id = row.user_id := rfl

theorem updateProfileRow_find (ps : List Profile) (uid : Nat) (p : UserProfile)
    {row : Profile} (h : ps.find? (fun r => r.user_id == uid) = some row) :
    (updateProfileRow ps uid p).find? (fun r => r.user_id == uid)
      = some (setProfileFields row p) := by
  induction ps with
  | nil => simp at h
  | cons head rest ih =>
      cases hh : (head.user_id == uid) with
      | true =>
          have hrow : head = row := by simpa [List.find?_cons, hh] using h
          subst hrow
          simp [updateProfileRow, hh, List.find?_cons, setProfileFields_user_id]
      | false =>
          have h2 : rest.find? (fun r => r.user_id == uid) = some row := by
            simpa [List.find?_cons, hh] using h
          simp [updateProfileRow, hh, List.find?_cons, ih h2]

theorem filter_not_self {α : Type} (p : α → Bool) (l : List α) :
    (l.filter (fun a => !(p a))).filter p = [] := by
  rw [List.filter_filter]
  refine List.filter_eq_nil_iff.mpr ?_
  intro a _
  cases hp : p a <;> simp [hp]

/-! Claim theorems and witnesses. -/

/-- C7: registering an existing username fails with 400 "Username exists" and
leaves the store untouched; registering a fresh username appends exactly one
User row carrying the hash of the password; hence registration preserves
username uniqueness. -/
theorem c7_register_conflict_and_unique (db : DB) (user : UserCreate) :
    ((findUser db user.username).isSome →
        register db user = (.error ⟨400, "Username exists"⟩, db)) ∧
    (findUser db user.username = none →
        register db user
          = (.ok "User registered",
              { db with
                  users := db.users ++
                    [⟨db.next_user_id, user.username, get_password_hash user.password⟩],
                  next_user_id := db.next_user_id + 1 })) ∧
    (UniqueUsernames db.users → UniqueUsernames (register db user).2.users) := by
  refine ⟨?_, ?_, ?_⟩
  · intro h
    rcases Option.isSome_iff_exists.mp h with ⟨w, hw⟩
    simp [register, findUser] at hw ⊢
    rw [hw]
  · intro h
    simp only [register, h]
  · intro huniq
    cases hf : findUser db user.username with
    | some w => simp only [register, hf]; exact huniq
    | none =>
        simp only [register, hf]
        refine List.pairwise_append.mpr ⟨huniq, List.pairwise_singleton _ _, ?_⟩
        intro a ha b hb
        have hne := List.find?_eq_none.mp hf a ha
        simp only [List.mem_singleton] at hb
        subst hb
        simpa using hne

/-- Witness for C7 at the empty store and the fresh username "alice". -/
theorem c7_witness :
    register emptyDB ⟨"alice", "pw"⟩
      = (.ok "User registered", ⟨[⟨1, "alice", get_password_hash "pw"⟩], [], [], 2, 1, 1⟩) :=
  (c7_register_conflict_and_unique emptyDB ⟨"alice", "pw"⟩).2.1 rfl

/-- C4: a token minted for subject A authenticates as A and never as another
username; a token signed with a key other than the server pair, or a
malformed token, is rejected with 401. -/
theorem c4_token_subject_integrity (A B raw : String) (now t k ex : Nat)
    (sub : Option String) :
    (get_current_user (some (create_access_token (some A) none now)) t = .ok B → B = A) ∧
    (k ≠ PUBLIC_KEY →
      get_current_user (some (Token.signed sub ex k)) t = .error ⟨401, "Invalid token"⟩) ∧
    (get_current_user (some (Token.malformed raw)) t = .error ⟨401, "Invalid token"⟩) := by
  refine ⟨?_, ?_, rfl⟩
  · intro h
    by_cases hexp : now + ACCESS_TOKEN_EXPIRE_MINUTES * 60 < t
    · simp [get_current_user, create_access_token, jwt_decode, PRIVATE_KEY, PUBLIC_KEY,
        hexp] at h
    · simp [get_current_user, create_access_token, jwt_decode, PRIVATE_KEY, PUBLIC_KEY,
        hexp] at h
      exact h.symm
  · intro hk
    have : (k == PUBLIC_KEY) = false := by simpa using hk
    simp [get_current_user, jwt_decode, this]

/-- Witness for C4: a token signed with key 1 (not the server pair) is
rejected. -/
theorem c4_witness :
    get_current_user (some (Token.signed none 5 1)) 10 = .error ⟨401, "Invalid token"⟩ :=
  (c4_token_subject_integrity "alice" "alice" "x" 0 10 1 5 none).2.1 (by decide)

/-- C6: a token issued by login expires exactly `ACCESS_TOKEN_EXPIRE_MINUTES`
(60 minutes) after issuance, and authenticating it strictly after that
timestamp fails with 401 even though it is well-formed and correctly
signed. -/
theorem c6_token_expiry (db : DB) (username password : String) (now t : Nat)
    (tok : Token) (hlogin : (login db username password now).1 = .ok tok) :
    (∃ s, tok = Token.signed s (now + ACCESS_TOKEN_EXPIRE_MINUTES * 60) PRIVATE_KEY) ∧
    (now + ACCESS_TOKEN_EXPIRE_MINUTES * 60 < t →
      get_current_user (some tok) t = .error ⟨401, "Invalid token"⟩) := by
  cases hf : findUser db username with
  | none => simp [login, hf] at hlogin
  | some user =>
      by_cases hv : verify_password password user.hashed_password = true
      · have htok : tok = create_access_token (some user.username) none now := by
          simp [login, hf, hv] at hlogin
          exact hlogin.symm
        subst htok
        refine ⟨⟨some user.username, rfl⟩, ?_⟩
        intro ht
        simp [get_current_user, create_access_token, jwt_decode, PRIVATE_KEY, PUBLIC_KEY, ht]
      · simp [login, hf, hv] at hlogin

/-- Witness for C6: alice's token issued at time 100 expires at 3700 and is
rejected at time 5000. -/
theorem c6_witness :
    get_current_user
        (some (Token.signed (some "alice") (100 + ACCESS_TOKEN_EXPIRE_MINUTES * 60) PRIVATE_KEY))
        5000
      = .error ⟨401, "Invalid token"⟩ :=
  (c6_token_expiry dbA "alice" "pw" 100 5000
      (Token.signed (some "alice") (100 + ACCESS_TOKEN_EXPIRE_MINUTES * 60) PRIVATE_KEY)
      rfl).2 (by decide)

/-- C9: when authentication fails (missing or invalid token) every protected
endpoint returns that 401 error and leaves the store exactly as it was. -/
theorem c9_unauthorized_state_unchanged (db : DB) (tok : Option Token) (now : Nat)
    (p : UserProfile) (query : String) (completion : List Msg → Option String)
    (links : String) (e : HTTPError)
    (hauth : get_current_user tok now = .error e) :
    e.status_code = 401 ∧
    create_or_update_profile db tok now p = (.error e, db) ∧
    get_profile db tok now = (.error e, db) ∧
    soccer_coach db tok now query completion links = (.error e, db) ∧
    get_chat_history db tok now = (.error e, db) ∧
    clear_chat_history db tok now = (.error e, db) := by
  refine ⟨get_current_user_error_401 hauth, ?_, ?_, ?_, ?_, ?_⟩ <;>
    simp [create_or_update_profile, get_profile, soccer_coach, get_chat_history,
      clear_chat_history, hauth]

/-- Witness for C9: a request with no Authorization header leaves the store
unchanged and is answered 401. -/
theorem c9_witness :
    clear_chat_history dbA none 0 = (.error ⟨401, "Not authenticated"⟩, dbA) :=
  (c9_unauthorized_state_unchanged dbA none 0 {} "q" (fun _ => none) ""
      ⟨401, "Not authenticated"⟩ rfl).2.2.2.2.2

/-- C1: on a successful completion call the coach endpoint appends exactly
two rows to the caller's chat log — the query with role "user", then the
reply with role "assistant" — and returns the reply; when the completion
call fails, the handler raises before any row is added and the store is
unchanged. -/
theorem c1_coach_appends_two_or_none (db : DB) (tok : Option Token) (now : Nat)
    (query : String) (completion : List Msg → Option String) (links : String)
    (u : String) (user : User)
    (hauth : get_current_user tok now = .ok u)
    (huser : findUser db u = some user) :
    (∀ ans, completion (coach_messages db user query links) = some ans →
      (soccer_coach db tok now query completion links).1 = .ok ans ∧
      userChats (soccer_coach db tok now query completion links).2 user.id
        = userChats db user.id ++
            [⟨db.next_chat_id, "user", query, user.id⟩,
              ⟨db.next_chat_id + 1, "assistant", ans, user.id⟩]) ∧
    (completion (coach_messages db user query links) = none →
      soccer_coach db tok now query completion links
        = (.error ⟨500, "Internal Server Error"⟩, db)) := by
  constructor
  · intro ans hc
    refine ⟨by simp [soccer_coach, hauth, huser, hc], ?_⟩
    simp [soccer_coach, hauth, huser, hc, addChat, userChats, List.filter_append]
  · intro hc
    simp [soccer_coach, hauth, huser, hc]

/-- Witness for C1: alice asks "hi", the provider answers "reply", and her
log gains the two rows. -/
theorem c1_witness :
    (soccer_coach dbA (some tokA) 0 "hi" (fun _ => some "reply") "").1 = .ok "reply" ∧
    userChats (soccer_coach dbA (some tokA) 0 "hi" (fun _ => some "reply") "").2 1
      = [⟨1, "user", "hi", 1⟩, ⟨2, "assistant", "reply", 1⟩] := by
  have h := (c1_coach_appends_two_or_none dbA (some tokA) 0 "hi" (fun _ => some "reply") ""
    "alice" aliceUser rfl rfl).1 "reply" rfl
  exact ⟨h.1, h.2.trans rfl⟩

/-- C2: the profile write is a full replace — for an existing user, writing
profile P echoes P and a subsequent read returns exactly P's eight fields
(omitted fields as null), whether a profile row already existed (overwrite)
or not (initial create). -/
theorem c2_profile_full_replace (db : DB) (tok : Option Token) (now : Nat)
    (p : UserProfile) (u : String) (user : User)
    (hauth : get_current_user tok now = .ok u)
    (huser : findUser db u = some user) :
    (create_or_update_profile db tok now p).1 = .ok p ∧
    (get_profile (create_or_update_profile db tok now p).2 tok now).1 = .ok (some p) := by
  cases hp : userProfile db user.id with
  | some row =>
      have h1 : create_or_update_profile db tok now p
          = (.ok p, { db with profiles := updateProfileRow db.profiles user.id p }) := by
        simp [create_or_update_profile, hauth, huser, hp]
      rw [h1]
      refine ⟨rfl, ?_⟩
      have hup : userProfile { db with profiles := updateProfileRow db.profiles user.id p }
          user.id = some (setProfileFields row p) :=
        updateProfileRow_find db.profiles user.id p hp
      have hf : findUser { db with profiles := updateProfileRow db.profiles user.id p } u
          = some user := huser
      simp [get_profile, hauth, hf, hup]
      rfl
  | none =>
      have h1 : create_or_update_profile db tok now p
          = (.ok p,
              { db with
                  profiles := db.profiles ++
                    [⟨db.next_profile_id, p.name, p.age, p.weight, p.height, p.strengths,
                      p.weaknesses, p.expertise, p.time, user.id⟩],
                  next_profile_id := db.next_profile_id + 1 }) := by
        simp [create_or_update_profile, hauth, huser, hp]
      rw [h1]
      refine ⟨rfl, ?_⟩
      have hup : userProfile
          { db with
              profiles := db.profiles ++
                [⟨db.next_profile_id, p.name, p.age, p.weight, p.height, p.strengths,
                  p.weaknesses, p.expertise, p.time, user.id⟩],
              next_profile_id := db.next_profile_id + 1 } user.id
          = some ⟨db.next_profile_id, p.name, p.age, p.weight, p.height, p.strengths,
              p.weaknesses, p.expertise, p.time, user.id⟩ := by
        have := find?_append_none (fun r : Profile => r.user_id == user.id)
          [⟨db.next_profile_id, p.name, p.age, p.weight, p.height, p.strengths,
            p.weaknesses, p.expertise, p.time, user.id⟩] hp
        simpa [userProfile, List.find?] using this
      have hf : findUser
          { db with
              profiles := db.profiles ++
                [⟨db.next_profile_id, p.name, p.age, p.weight, p.height, p.strengths,
                  p.weaknesses, p.expertise, p.time, user.id⟩],
              next_profile_id := db.next_profile_id + 1 } u = some user := huser
      simp [get_profile, hauth, hf, hup]
      rfl

/-- Witness for C2: alice (no prior profile) writes name "Alice", age 20;
the write echoes it and the read returns it, omitted fields null. -/
theorem c2_witness :
    (create_or_update_profile dbA (some tokA) 0 { name := some "Alice", age := some 20 }).1
        = .ok { name := some "Alice", age := some 20 } ∧
    (get_profile
        (create_or_update_profile dbA (some tokA) 0
          { name := some "Alice", age := some 20 }).2 (some tokA) 0).1
      = .ok (some { name := some "Alice", age := some 20 }) :=
  c2_profile_full_replace dbA (some tokA) 0 { name := some "Alice", age := some 20 }
    "alice" aliceUser rfl rfl

/-- C3: starting from an empty log, appending M1, M2, M3 and listing returns
exactly [M1, M2, M3] in insertion order; clearing and listing returns []. -/
theorem c3_history_insertion_order (db : DB) (tok : Option Token) (now : Nat)
    (u : String) (user : User) (m1 m2 m3 : Msg)
    (hauth : get_current_user tok now = .ok u)
    (huser : findUser db u = some user)
    (hempty : userChats db user.id = []) :
    (get_chat_history
        (addChat (addChat (addChat db user.id m1.role m1.content)
          user.id m2.role m2.content) user.id m3.role m3.content) tok now).1
      = .ok [m1, m2, m3] ∧
    (get_chat_history
        (clear_chat_history
          (addChat (addChat (addChat db user.id m1.role m1.content)
            user.id m2.role m2.content) user.id m3.role m3.content) tok now).2
        tok now).1
      = .ok [] := by
  have hf3 : findUser
      (addChat (addChat (addChat db user.id m1.role m1.content)
        user.id m2.role m2.content) user.id m3.role m3.content) u = some user := huser
  have hc3 : userChats
      (addChat (addChat (addChat db user.id m1.role m1.content)
        user.id m2.role m2.content) user.id m3.role m3.content) user.id
      = [⟨db.next_chat_id, m1.role, m1.content, user.id⟩,
          ⟨db.next_chat_id + 1, m2.role, m2.content, user.id⟩,
          ⟨db.next_chat_id + 2, m3.role, m3.content, user.id⟩] := by
    have he : db.chats.filter (fun c => c.user_id == user.id) = [] := hempty
    simp [userChats, addChat, List.filter_append, he]
  constructor
  · simp [get_chat_history, hauth, hf3, hc3]
  · have hclear : clear_chat_history
        (addChat (addChat (addChat db user.id m1.role m1.content)
          user.id m2.role m2.content) user.id m3.role m3.content) tok now
        = (.ok "Chat history cleared.",
            { (addChat (addChat (addChat db user.id m1.role m1.content)
                user.id m2.role m2.content) user.id m3.role m3.content) with
                chats := ((addChat (addChat (addChat db user.id m1.role m1.content)
                  user.id m2.role m2.content) user.id m3.role m3.content)).chats.filter
                    (fun c => !(c.user_id == user.id)) }) := by
      simp [clear_chat_history, hauth, hf3]
    rw [hclear]
    have hfc : findUser
        { (addChat (addChat (addChat db user.id m1.role m1.content)
            user.id m2.role m2.content) user.id m3.role m3.content) with
            chats := ((addChat (addChat (addChat db user.id m1.role m1.content)
              user.id m2.role m2.content) user.id m3.role m3.content)).chats.filter
                (fun c => !(c.user_id == user.id)) } u = some user := huser
    simp [get_chat_history, hauth, hfc, userChats, filter_not_self]

/-- Witness for C3: alice's empty log, three concrete messages. -/
theorem c3_witness :
    (get_chat_history
        (addChat (addChat (addChat dbA 1 "user" "a") 1 "assistant" "b") 1 "user" "c")
        (some tokA) 0).1
      = .ok [⟨"user", "a"⟩, ⟨"assistant", "b"⟩, ⟨"user", "c"⟩] ∧
    (get_chat_history
        (clear_chat_history
          (addChat (addChat (addChat dbA 1 "user" "a") 1 "assistant" "b") 1 "user" "c")
          (some tokA) 0).2
        (some tokA) 0).1
      = .ok [] :=
  c3_history_insertion_order dbA (some tokA) 0 "alice" aliceUser
    ⟨"user", "a"⟩ ⟨"assistant", "b"⟩ ⟨"user", "c"⟩ rfl rfl rfl

/-- C5 counterexample: with a structurally valid, unexpired token for the
nonexistent user "ghost", the profile read does not fail with NotFound — it
returns the empty object with status 200. -/
theorem c5_counterexample :
    findUser emptyDB "ghost" = none ∧
    get_current_user (some ghostTok) 0 = .ok "ghost" ∧
    (get_profile emptyDB (some ghostTok) 0).1 = .ok none ∧
    (get_profile emptyDB (some ghostTok) 0).1 ≠ .error ⟨404, "User not found"⟩ :=
  ⟨rfl, rfl, rfl, fun h => Except.noConfusion h⟩

/-- C5 amended: with a valid token whose username has no backing User record,
profile write, coach, history list and history clear fail with 404
"User not found" (store unchanged), while profile read returns the empty
result with success. -/
theorem c5_missing_user_not_found (db : DB) (tok : Option Token) (now : Nat)
    (u : String) (p : UserProfile) (query : String)
    (completion : List Msg → Option String) (links : String)
    (hauth : get_current_user tok now = .ok u)
    (huser : findUser db u = none) :
    create_or_update_profile db tok now p = (.error ⟨404, "User not found"⟩, db) ∧
    get_profile db tok now = (.ok none, db) ∧
    soccer_coach db tok now query completion links = (.error ⟨404, "User not found"⟩, db) ∧
    get_chat_history db tok now = (.error ⟨404, "User not found"⟩, db) ∧
    clear_chat_history db tok now = (.error ⟨404, "User not found"⟩, db) := by
  refine ⟨?_, ?_, ?_, ?_, ?_⟩ <;>
    simp [create_or_update_profile, get_profile, soccer_coach, get_chat_history,
      clear_chat_history, hauth, huser]

/-- Witness for C5 (amended) at the ghost token over the empty store. -/
theorem c5_witness :
    soccer_coach emptyDB (some ghostTok) 0 "q" (fun _ => none) ""
      = (.error ⟨404, "User not found"⟩, emptyDB) :=
  (c5_missing_user_not_found emptyDB (some ghostTok) 0 "ghost" {} "q" (fun _ => none) ""
      rfl rfl).2.2.1

/-- C10: clearing the chat history of the authenticated user deletes exactly
that user's rows: the users and profiles tables are untouched, the caller's
log becomes empty, and every other owner's log is unchanged. -/
theorem c10_clear_only_own_messages (db : DB) (tok : Option Token) (now : Nat)
    (u : String) (user : User) (uid : Nat)
    (hauth : get_current_user tok now = .ok u)
    (huser : findUser db u = some user) :
    (clear_chat_history db tok now).1 = .ok "Chat history cleared." ∧
    ((clear_chat_history db tok now).2).users = db.users ∧
    ((clear_chat_history db tok now).2).profiles = db.profiles ∧
    userChats (clear_chat_history db tok now).2 user.id = [] ∧
    (uid ≠ user.id → userChats (clear_chat_history db tok now).2 uid = userChats db uid) := by
  have h1 : clear_chat_history db tok now
      = (.ok "Chat history cleared.",
          { db with chats := db.chats.filter (fun c => !(c.user_id == user.id)) }) := by
    simp [clear_chat_history, hauth, huser]
  rw [h1]
  refine ⟨rfl, rfl, rfl, ?_, ?_⟩
  · exact filter_not_self (fun c : ChatHistory => c.user_id == user.id) db.chats
  · intro hne
    simp only [userChats]
    rw [List.filter_filter]
    refine List.filter_congr ?_
    intro c _
    cases hc : (c.user_id == uid) with
    | true =>
        have : c.user_id = uid := by simpa using hc
        simp [this, hne]
    | false => simp

/-- Witness for C10: alice clears her log; the store with bob's row survives
and bob's log is intact. -/
theorem c10_witness :
    userChats (clear_chat_history dbB (some tokA) 0).2 1 = [] ∧
    userChats (clear_chat_history dbB (some tokA) 0).2 2 = userChats dbB 2 :=
  ⟨(c10_clear_only_own_messages dbB (some tokA) 0 "alice" aliceUser 2 rfl rfl).2.2.2.1,
    (c10_clear_only_own_messages dbB (some tokA) 0 "alice" aliceUser 2 rfl rfl).2.2.2.2
      (by decide)⟩

theorem charsMatch_append_self (a b : List Char) : charsMatch a (a ++ b) = true := by
  induction a with
  | nil => rfl
  | cons x xs ih => simp [charsMatch, ih]

theorem hasLabel_append_self (l v : String) : hasLabel l (l ++ v) = true := by
  simp [hasLabel, String.data_append, charsMatch_append_self]

theorem charsMatch_eq_false_of_mismatch :
    ∀ (a b v : List Char), mismatchWithin a b = true → charsMatch a (b ++ v) = false := by
  intro a
  induction a with
  | nil => intro b v h; cases b <;> simp [mismatchWithin] at h
  | cons x xs ih =>
      intro b v h
      cases b with
      | nil => simp [mismatchWithin] at h
      | cons y ys =>
          simp only [mismatchWithin, Bool.or_eq_true] at h
          cases hxy : (x == y) with
          | false => simp [charsMatch, hxy]
          | true =>
              have hm : mismatchWithin xs ys = true := by
                rcases h with h | h
                · rw [hxy] at h; simp at h
                · exact h
              simp [charsMatch, hxy, ih ys v hm]

theorem hasLabel_eq_false (l1 l2 v : String)
    (h : mismatchWithin l1.data l2.data = true) : hasLabel l1 (l2 ++ v) = false := by
  simp only [hasLabel, String.data_append]
  exact charsMatch_eq_false_of_mismatch l1.data l2.data v.data h

theorem countLabel_append (l : String) (xs ys : List String) :
    countLabel l (xs ++ ys) = countLabel l xs + countLabel l ys :=
  List.countP_append _ _ _

theorem countLabel_ite (l : String) (c : Bool) (x : String) :
    countLabel l (if c then [x] else [])
      = if c then (if hasLabel l x then 1 else 0) else 0 := by
  cases c <;> simp [countLabel, List.countP_cons, List.countP_nil]

/-- C8 counterexample: the profile row with name "Bob" and age 0 — the `age`
column is populated, yet the rendered summary is just "Name: Bob" and
contains no "Age: " line, because the code tests Python truthiness and 0 is
falsy. -/
theorem c8_counterexample :
    bobRow.age = some 0 ∧
    profile_context (some bobRow) = "Name: Bob" ∧
    countLabel "Age: " (profile_parts bobRow) = 0 := by
  refine ⟨rfl, by decide, by decide⟩

/-- C8 amended: the summary holds one "Label: value" line per field whose
value is truthy (non-null and not zero/empty) — stated as: for each of the
eight labels, the number of summary lines starting with that label is 1 when
the field is truthy and 0 otherwise; a user with no profile row gets the
fixed placeholder; and the summary is embedded verbatim in the system
instruction. -/
theorem c8_profile_summary_lines (p : Profile) (links : String) :
    profile_context none = "No profile provided." ∧
    countLabel "Name: " (profile_parts p) = (if truthyS p.name then 1 else 0) ∧
    countLabel "Age: " (profile_parts p) = (if truthyI p.age then 1 else 0) ∧
    countLabel "Weight (kg): " (profile_parts p) = (if truthyI p.weight then 1 else 0) ∧
    countLabel "Height (cm): " (profile_parts p) = (if truthyI p.height then 1 else 0) ∧
    countLabel "Strengths: " (profile_parts p) = (if truthyS p.strengths then 1 else 0) ∧
    countLabel "Weaknesses: " (profile_parts p) = (if truthyS p.weaknesses then 1 else 0) ∧
    countLabel "Expertise (in months): " (profile_parts p)
      = (if truthyS p.expertise then 1 else 0) ∧
    countLabel "Free time per day (minutes): " (profile_parts p)
      = (if truthyI p.time then 1 else 0) ∧
    (∃ pre post, system_prompt (profile_context (some p)) links
        = pre ++ (profile_context (some p) ++ post)) := by
  have h12 : ∀ v, hasLabel "Name: " ("Age: " ++ v) = false :=
    fun v => hasLabel_eq_false _ _ v (by decide)
  have h13 : ∀ v, hasLabel "Name: " ("Weight (kg): " ++ v) = false :=
    fun v => hasLabel_eq_false _ _ v (by decide)
  have h14 : ∀ v, hasLabel "Name: " ("Height (cm): " ++ v) = false :=
    fun v => hasLabel_eq_false _ _ v (by decide)
  have h15 : ∀ v, hasLabel "Name: " ("Strengths: " ++ v) = false :=
    fun v => hasLabel_eq_false _ _ v (by decide)
  have h16 : ∀ v, hasLabel "Name: " ("Weaknesses: " ++ v) = false :=
    fun v => hasLabel_eq_false _ _ v (by decide)
  have h17 : ∀ v, hasLabel "Name: " ("Expertise (in months): " ++ v) = false :=
    fun v => hasLabel_eq_false _ _ v (by decide)
  have h18 : ∀ v, hasLabel "Name: " ("Free time per day (minutes): " ++ v) = false :=
    fun v => hasLabel_eq_false _ _ v (by decide)
  have h21 : ∀ v, hasLabel "Age: " ("Name: " ++ v) = false :=
    fun v => hasLabel_eq_false _ _ v (by decide)
  have h23 : ∀ v, hasLabel "Age: " ("Weight (kg): " ++ v) = false :=
    fun v => hasLabel_eq_false _ _ v (by decide)
  have h24 : ∀ v, hasLabel "Age: " ("Height (cm): " ++ v) = false :=
    fun v => hasLabel_eq_false _ _ v (by decide)
  have h25 : ∀ v, hasLabel "Age: " ("Strengths: " ++ v) = false :=
    fun v => hasLabel_eq_false _ _ v (by decide)
  have h26 : ∀ v, hasLabel "Age: " ("Weaknesses: " ++ v) = false :=
    fun v => hasLabel_eq_false _ _ v (by decide)
  have h27 : ∀ v, hasLabel "Age: " ("Expertise (in months): " ++ v) = false :=
    fun v => hasLabel_eq_false _ _ v (by decide)
  have h28 : ∀ v, hasLabel "Age: " ("Free time per day (minutes): " ++ v) = false :=
    fun v => hasLabel_eq_false _ _ v (by decide)
  have h31 : ∀ v, hasLabel "Weight (kg): " ("Name: " ++ v) = false :=
    fun v => hasLabel_eq_false _ _ v (by decide)
  have h32 : ∀ v, hasLabel "Weight (kg): " ("Age: " ++ v) = false :=
    fun v => hasLabel_eq_false _ _ v (by decide)
  have h34 : ∀ v, hasLabel "Weight (kg): " ("Height (cm): " ++ v) = false :=
    fun v => hasLabel_eq_false _ _ v (by decide)
  have h35 : ∀ v, hasLabel "Weight (kg): " ("Strengths: " ++ v) = false :=
    fun v => hasLabel_eq_false _ _ v (by decide)
  have h36 : ∀ v, hasLabel "Weight (kg): " ("Weaknesses: " ++ v) = false :=
    fun v => hasLabel_eq_false _ _ v (by decide)
  have h37 : ∀ v, hasLabel "Weight (kg): " ("Expertise (in months): " ++ v) = false :=
    fun v => hasLabel_eq_false _ _ v (by decide)
  have h38 : ∀ v, hasLabel "Weight (kg): " ("Free time per day (minutes): " ++ v) = false :=
    fun v => hasLabel_eq_false _ _ v (by decide)
  have h41 : ∀ v, hasLabel "Height (cm): " ("Name: " ++ v) = false :=
    fun v => hasLabel_eq_false _ _ v (by decide)
  have h42 : ∀ v, hasLabel "Height (cm): " ("Age: " ++ v) = false :=
    fun v => hasLabel_eq_false _ _ v (by decide)
  have h43 : ∀ v, hasLabel "Height (cm): " ("Weight (kg): " ++ v) = false :=
    fun v => hasLabel_eq_false _ _ v (by decide)
  have h45 : ∀ v, hasLabel "Height (cm): " ("Strengths: " ++ v) = false :=
    fun v => hasLabel_eq_false _ _ v (by decide)
  have h46 : ∀ v, hasLabel "Height (cm): " ("Weaknesses: " ++ v) = false :=
    fun v => hasLabel_eq_false _ _ v (by decide)
  have h47 : ∀ v, hasLabel "Height (cm): " ("Expertise (in months): " ++ v) = false :=
    fun v => hasLabel_eq_false _ _ v (by decide)
  have h48 : ∀ v, hasLabel "Height (cm): " ("Free time per day (minutes): " ++ v) = false :=
    fun v => hasLabel_eq_false _ _ v (by decide)
  have h51 : ∀ v, hasLabel "Strengths: " ("Name: " ++ v) = false :=
    fun v => hasLabel_eq_false _ _ v (by decide)
  have h52 : ∀ v, hasLabel "Strengths: " ("Age: " ++ v) = false :=
    fun v => hasLabel_eq_false _ _ v (by decide)
  have h53 : ∀ v, hasLabel "Strengths: " ("Weight (kg): " ++ v) = false :=
    fun v => hasLabel_eq_false _ _ v (by decide)
  have h54 : ∀ v, hasLabel "Strengths: " ("Height (cm): " ++ v) = false :=
    fun v => hasLabel_eq_false _ _ v (by decide)
  have h56 : ∀ v, hasLabel "Strengths: " ("Weaknesses: " ++ v) = false :=
    fun v => hasLabel_eq_false _ _ v (by decide)
  have h57 : ∀ v, hasLabel "Strengths: " ("Expertise (in months): " ++ v) = false :=
    fun v => hasLabel_eq_false _ _ v (by decide)
  have h58 : ∀ v, hasLabel "Strengths: " ("Free time per day (minutes): " ++ v) = false :=
    fun v => hasLabel_eq_false _ _ v (by decide)
  have h61 : ∀ v, hasLabel "Weaknesses: " ("Name: " ++ v) = false :=
    fun v => hasLabel_eq_false _ _ v (by decide)
  have h62 : ∀ v, hasLabel "Weaknesses: " ("Age: " ++ v) = false :=
    fun v => hasLabel_eq_false _ _ v (by decide)
  have h63 : ∀ v, hasLabel "Weaknesses: " ("Weight (kg): " ++ v) = false :=
    fun v => hasLabel_eq_false _ _ v (by decide)
  have h64 : ∀ v, hasLabel "Weaknesses: " ("Height (cm): " ++ v) = false :=
    fun v => hasLabel_eq_false _ _ v (by decide)
  have h65 : ∀ v, hasLabel "Weaknesses: " ("Strengths: " ++ v) = false :=
    fun v => hasLabel_eq_false _ _ v (by decide)
  have h67 : ∀ v, hasLabel "Weaknesses: " ("Expertise (in months): " ++ v) = false :=
    fun v => hasLabel_eq_false _ _ v (by decide)
  have h68 : ∀ v, hasLabel "Weaknesses: " ("Free time per day (minutes): " ++ v) = false :=
    fun v => hasLabel_eq_false _ _ v (by decide)
  have h71 : ∀ v, hasLabel "Expertise (in months): " ("Name: " ++ v) = false :=
    fun v => hasLabel_eq_false _ _ v (by decide)
  have h72 : ∀ v, hasLabel "Expertise (in months): " ("Age: " ++ v) = false :=
    fun v => hasLabel_eq_false _ _ v (by decide)
  have h73 : ∀ v, hasLabel "Expertise (in months): " ("Weight (kg): " ++ v) = false :=
    fun v => hasLabel_eq_false _ _ v (by decide)
  have h74 : ∀ v, hasLabel "Expertise (in months): " ("Height (cm): " ++ v) = false :=
    fun v => hasLabel_eq_false _ _ v (by decide)
  have h75 : ∀ v, hasLabel "Expertise (in months): " ("Strengths: " ++ v) = false :=
    fun v => hasLabel_eq_false _ _ v (by decide)
  have h76 : ∀ v, hasLabel "Expertise (in months): " ("Weaknesses: " ++ v) = false :=
    fun v => hasLabel_eq_false _ _ v (by decide)
  have h78 : ∀ v, hasLabel "Expertise (in months): " ("Free time per day (minutes): " ++ v) = false :=
    fun v => hasLabel_eq_false _ _ v (by decide)
  have h81 : ∀ v, hasLabel "Free time per day (minutes): " ("Name: " ++ v) = false :=
    fun v => hasLabel_eq_false _ _ v (by decide)
  have h82 : ∀ v, hasLabel "Free time per day (minutes): " ("Age: " ++ v) = false :=
    fun v => hasLabel_eq_false _ _ v (by decide)
  have h83 : ∀ v, hasLabel "Free time per day (minutes): " ("Weight (kg): " ++ v) = false :=
    fun v => hasLabel_eq_false _ _ v (by decide)
  have h84 : ∀ v, hasLabel "Free time per day (minutes): " ("Height (cm): " ++ v) = false :=
    fun v => hasLabel_eq_false _ _ v (by decide)
  have h85 : ∀ v, hasLabel "Free time per day (minutes): " ("Strengths: " ++ v) = false :=
    fun v => hasLabel_eq_false _ _ v (by decide)
  have h86 : ∀ v, hasLabel "Free time per day (minutes): " ("Weaknesses: " ++ v) = false :=
    fun v => hasLabel_eq_false _ _ v (by decide)
  have h87 : ∀ v, hasLabel "Free time per day (minutes): " ("Expertise (in months): " ++ v) = false :=
    fun v => hasLabel_eq_false _ _ v (by decide)
  refine ⟨rfl, ?_, ?_, ?_, ?_, ?_, ?_, ?_, ?_,
    ⟨COACH_PERSONA ++ "Profile:\n", "\nLINKS:\n" ++ links, ?_⟩⟩
  · simp [profile_parts, countLabel_append, countLabel_ite, hasLabel_append_self,
      h12, h13, h14, h15, h16, h17, h18]
  · simp [profile_parts, countLabel_append, countLabel_ite, hasLabel_append_self,
      h21, h23, h24, h25, h26, h27, h28]
  · simp [profile_parts, countLabel_append, countLabel_ite, hasLabel_append_self,
      h31, h32, h34, h35, h36, h37, h38]
  · simp [profile_parts, countLabel_append, countLabel_ite, hasLabel_append_self,
      h41, h42, h43, h45, h46, h47, h48]
  · simp [profile_parts, countLabel_append, countLabel_ite, hasLabel_append_self,
      h51, h52, h53, h54, h56, h57, h58]
  · simp [profile_parts, countLabel_append, countLabel_ite, hasLabel_append_self,
      h61, h62, h63, h64, h65, h67, h68]
  · simp [profile_parts, countLabel_append, countLabel_ite, hasLabel_append_self,
      h71, h72, h73, h74, h75, h76, h78]
  · simp [profile_parts, countLabel_append, countLabel_ite, hasLabel_append_self,
      h81, h82, h83, h84, h85, h86, h87]
  · simp [system_prompt, String.append_assoc]

end FootballAI
